import Mathlib

/-!
Verification development for the deimos JSON-RPC request handler.

The source under study is a single-module JSON-RPC 1.0/2.0 server-side
handler (an RpcHandler constructor plus prototype methods) together with a
small demo registry (rpcdemo.js). This file gives a shallow embedding of
that module: JavaScript values are modelled by an inductive JSVal, thrown
JavaScript exceptions by JSErr, and the HTTP response object by a trace of
output events (writeHead / end calls). Each prototype method of the source
is translated into a Lean definition of the same name, and the claims about
the module are settled as theorems over those definitions.

Modelling conventions:
- JavaScript numbers are modelled as integers (all numbers appearing in
  the module and its demo are integer literals).
- The http request/response collaborators are modelled by their observable
  behaviour: the request only matters through the accumulated body, whose
  JSON.parse outcome is passed in as a parameter (JSON.parse is a host
  builtin, not code of this module); the response is the event trace.
- Plain objects are association lists with distinct keys (JSON.parse with
  duplicate keys is outside the model).
-/

namespace Deimos

/- JavaScript values as they occur in this module: JSON-decodable data
plus the distinguished undefined value. Arrays and objects are given by
mutually inductive spine types so that recursion over them is structural. -/
mutual

inductive JSVal : Type where
  | null : JSVal
  | undefined : JSVal
  | bool (b : Bool) : JSVal
  | num (n : Int) : JSVal
  | str (s : String) : JSVal
  | arr (elems : JSArr) : JSVal
  | obj (fields : JSObj) : JSVal

inductive JSArr : Type where
  | nil : JSArr
  | cons (hd : JSVal) (tl : JSArr) : JSArr

inductive JSObj : Type where
  | nil : JSObj
  | cons (key : String) (val : JSVal) (tl : JSObj) : JSObj

end

/-- JavaScript truthiness (ToBoolean) for the modelled values: null,
undefined, false, 0 and the empty string are falsy; every other value,
including every array and object, is truthy. -/
def toBool : JSVal → Bool
  | .null => false
  | .undefined => false
  | .bool b => b
  | .num n => n != 0
  | .str s => s != ""
  | .arr _ => true
  | .obj _ => true

/-- Whether a value is the JavaScript null (used for the strict
comparison this.id === null in the source). -/
def isNullVal : JSVal → Bool
  | .null => true
  | _ => false

/-- Lookup of an own property in an object spine. -/
def objLookup : JSObj → String → Option JSVal
  | .nil, _ => none
  | .cons k v tl, key => if k == key then some v else objLookup tl key

/-- Property read v[key]: on an object it yields the property value or
undefined; the model is only applied to object receivers (reads on null or
undefined would throw in JavaScript and do not occur in the modelled flows;
reads on other primitives yield undefined). -/
def jsGetField : JSVal → String → JSVal
  | .obj fs, key => (objLookup fs key).getD .undefined
  | _, _ => .undefined

/-- The JavaScript in-operator, key in v, for object receivers. -/
def hasField : JSVal → String → Bool
  | .obj fs, key => (objLookup fs key).isSome
  | _, _ => false

/-- Element access into an array spine; out of range gives undefined. -/
def arrNth : JSArr → Nat → JSVal
  | .nil, _ => .undefined
  | .cons x _, 0 => x
  | .cons _ tl, n + 1 => arrNth tl n

/-- Indexed read v[n] as used by the demo handler on its params value:
array element, object property named by the decimal index, single-character
string for string receivers, undefined otherwise. -/
def jsIndex : JSVal → Nat → JSVal
  | .arr xs, n => arrNth xs n
  | .obj fs, n => (objLookup fs (toString n)).getD .undefined
  | .str s, n =>
      match s.toList.get? n with
      | some c => .str (String.singleton c)
      | none => .undefined
  | _, _ => .undefined

/- ToString coercion used for property keys (the in-operator and bracket
indexing coerce their key to a string). Objects print as [object Object];
arrays join their elements with commas, printing null and undefined
elements as the empty string. -/
mutual

def jsToKeyString : JSVal → String
  | .null => "null"
  | .undefined => "undefined"
  | .bool b => cond b "true" "false"
  | .num n => toString n
  | .str s => s
  | .arr xs => jsArrJoinParts xs
  | .obj _ => "[object Object]"

def jsArrJoinParts : JSArr → String
  | .nil => ""
  | .cons x tl =>
      (match x with
       | .null => ""
       | .undefined => ""
       | .bool b => cond b "true" "false"
       | .num n => toString n
       | .str s => s
       | .arr ys => jsArrJoinParts ys
       | .obj _ => "[object Object]") ++
      (match tl with
       | .nil => ""
       | .cons y tl2 => "," ++ jsArrJoinParts (.cons y tl2))

end

/-- Left and right curly brackets as strings, for building JSON text. -/
def lcurl : String := "\x7b"

/-- Right curly bracket as a string. -/
def rcurl : String := "\x7d"

/-- Hexadecimal digit for control-character escapes. -/
def hexDigit (n : Nat) : Char :=
  if n < 10 then Char.ofNat (48 + n) else Char.ofNat (87 + n)

/-- JSON string escaping for a single character, as JSON.stringify
performs it. -/
def escapeChar (c : Char) : String :=
  if c = '"' then "\\\""
  else if c = '\\' then "\\\\"
  else if c = Char.ofNat 8 then "\\b"
  else if c = Char.ofNat 9 then "\\t"
  else if c = Char.ofNat 10 then "\\n"
  else if c = Char.ofNat 12 then "\\f"
  else if c = Char.ofNat 13 then "\\r"
  else if c.toNat < 32 then
    "\\u00" ++ String.singleton (hexDigit (c.toNat / 16)) ++
      String.singleton (hexDigit (c.toNat % 16))
  else String.singleton c

/-- JSON quoting of a string value. -/
def jsonQuote (s : String) : String :=
  "\"" ++ String.join (s.toList.map escapeChar) ++ "\""

/- JSON.stringify on the modelled values. A lone undefined serializes to
nothing (none); inside arrays undefined and null print as null; object
properties whose value serializes to nothing are dropped. -/
mutual

def jsonStringify : JSVal → Option String
  | .null => some "null"
  | .undefined => none
  | .bool b => some (cond b "true" "false")
  | .num n => some (toString n)
  | .str s => some (jsonQuote s)
  | .arr xs => some ("[" ++ String.intercalate "," (jsonStringifyArr xs) ++ "]")
  | .obj fs => some (lcurl ++ String.intercalate "," (jsonStringifyObj fs) ++ rcurl)

def jsonStringifyArr : JSArr → List String
  | .nil => []
  | .cons x tl =>
      ((jsonStringify x).getD "null") :: jsonStringifyArr tl

def jsonStringifyObj : JSObj → List String
  | .nil => []
  | .cons k v tl =>
      match jsonStringify v with
      | none => jsonStringifyObj tl
      | some s => (jsonQuote k ++ ":" ++ s) :: jsonStringifyObj tl

end

/-- Decimal digit-string parser used by the string-to-number coercion. -/
def parseDigits (s : String) : Option Nat :=
  if s == "" then none
  else
    s.foldl
      (fun acc c =>
        acc.bind (fun a => if c.isDigit then some (a * 10 + (c.toNat - 48)) else none))
      (some 0)

/-- ToNumber on strings, restricted to the integer grammar of this model:
a blank string coerces to 0, optionally signed digit strings to their
value, anything else to NaN (none). -/
def strToNumJS (s : String) : Option Int :=
  let t := s.trim
  if t == "" then some 0
  else if t.startsWith "-" then (parseDigits (t.drop 1)).map (fun n => -(n : Int))
  else (parseDigits t).map (fun n => (n : Int))

/-- ToNumber on primitive values: null is 0, booleans are 0 or 1,
undefined is NaN (none). -/
def primToNum : JSVal → Option Int
  | .null => some 0
  | .undefined => none
  | .bool b => some (cond b 1 0)
  | .num n => some n
  | .str s => strToNumJS s
  | _ => none

/-- Mixed-type primitive loose comparison: both sides coerce to numbers
and compare; a NaN on either side compares unequal. -/
def primsLooseEq (a b : JSVal) : Bool :=
  match primToNum a, primToNum b with
  | some x, some y => x == y
  | _, _ => false

/-- Loose comparison of a composite value (already coerced to its
primitive string s) against a primitive value. -/
def jsLooseEqCP (s : String) (p : JSVal) : Bool :=
  match p with
  | .str t => s == t
  | .num n =>
      match strToNumJS s with
      | some v => v == n
      | none => false
  | .bool b =>
      match strToNumJS s, primToNum (.bool b) with
      | some v, some w => v == w
      | _, _ => false
  | _ => false

/-- JavaScript loose equality (the != test of the demo handler is its
negation). Composite operands compare by reference, so two values built
independently in this model are unequal; a composite against a primitive
other than null or undefined coerces through its string form. -/
def jsLooseEq (a b : JSVal) : Bool :=
  match a, b with
  | .null, .null | .null, .undefined | .undefined, .null | .undefined, .undefined => true
  | .null, _ | _, .null | .undefined, _ | _, .undefined => false
  | .num x, .num y => x == y
  | .str x, .str y => x == y
  | .bool x, .bool y => x == y
  | .arr _, .arr _ | .arr _, .obj _ | .obj _, .arr _ | .obj _, .obj _ => false
  | .arr xs, p => jsLooseEqCP (jsToKeyString (.arr xs)) p
  | .obj fs, p => jsLooseEqCP (jsToKeyString (.obj fs)) p
  | p, .arr xs => jsLooseEqCP (jsToKeyString (.arr xs)) p
  | p, .obj fs => jsLooseEqCP (jsToKeyString (.obj fs)) p
  | x, y => primsLooseEq x y

/-- Thrown JavaScript exceptions that the modelled flows can raise. -/
inductive JSErr : Type where
  | jsError (msg : String)
  | typeError (msg : String)
  | referenceError (msg : String)
  | parseFault (msg : String)
deriving DecidableEq, Repr

/-- Observable calls made on the http.ServerResponse collaborator. -/
inductive OutEvent : Type where
  | writeHead (status : Nat) (contentType : String)
  | endEmpty
  | endWith (body : String)
deriving DecidableEq, Repr

/-- Normal or exceptional completion of a piece of JavaScript. -/
inductive Outcome (α : Type) : Type where
  | ok (a : α)
  | thrown (e : JSErr)
deriving DecidableEq, Repr

/-- A run of a piece of the handler: the response-object calls it made,
in order, and how it completed. -/
structure JsRun (α : Type) : Type where
  events : List OutEvent
  result : Outcome α
deriving DecidableEq, Repr

/-- Sequencing of two runs: the second executes only if the first
completed normally; events already emitted persist across a throw. -/
def JsRun.andThen (a : JsRun Unit) (b : JsRun α) : JsRun α :=
  match a.result with
  | .ok _ => ⟨a.events ++ b.events, b.result⟩
  | .thrown e => ⟨a.events, .thrown e⟩

/-- Forgetting the value of a run (a JavaScript call whose result is
discarded by an expression statement). -/
def JsRun.discard (a : JsRun α) : JsRun Unit :=
  ⟨a.events, match a.result with
             | .ok _ => .ok ()
             | .thrown e => .thrown e⟩

/-- Whether an event is a body-carrying end call. -/
def isEndWith : OutEvent → Bool
  | .endWith _ => true
  | _ => false

/-- Whether a trace contains a body-carrying end call. -/
def hasBodyWrite (events : List OutEvent) : Bool :=
  events.any isEndWith

/-- The status code of the first writeHead call of a trace, if any. -/
def firstStatus : List OutEvent → Option Nat
  | .writeHead s _ :: _ => some s
  | _ => none

/-- The content type the handler sets on every writeHead call. -/
def ct : String := "application/json"

/-- Script of rpc-interface calls a registered method performs when
invoked with some params value. This deep embedding covers handlers that
interact with the dispatcher through its public surface, which is how the
module documents handlers (function(rpc, args) calling rpc.error or
rpc.response) and how the demo registry uses it: respond and fail are the
two public calls, raise is a thrown exception, seq sequences two steps. -/
inductive HandlerAct : Type where
  | respond (x : JSVal)
  | fail (m : JSVal)
  | raise (msg : String)
  | seq (a b : HandlerAct)
  | nop

/-- A registered method: from the request params to the script of calls
it makes on the rpc context passed to it. -/
def Handler : Type := JSVal → HandlerAct

/-- A value stored in the methods registry object: a function, a plain
object (with its method property, if any, since the dispatch line reads
exactly that property), or a primitive. -/
inductive RegVal : Type where
  | fn (f : Handler)
  | mobj (methodProp : Option RegVal)
  | prim (v : JSVal)

/-- The methods argument once it passed the construction-time typeof
check: the JavaScript null (whose typeof is also "object") or a plain
object mapping method names to values. -/
inductive MethodsVal : Type where
  | null
  | obj (entries : List (String × RegVal))

/-- Truthiness of the methods value, for the !this.methods test: null is
falsy, every object is truthy. -/
def toBoolMethods : MethodsVal → Bool
  | .null => false
  | .obj _ => true

/-- Own-property lookup in the registry object with an already-coerced
string key (both the in-operator and bracket indexing coerce keys to
strings); the prototype chain of the plain registry object is consulted
separately by readProp. -/
def lookupEntry (entries : List (String × RegVal)) (key : String) : Option RegVal :=
  (entries.find? (fun p => p.1 == key)).map (fun p => p.2)

/-- The properties every plain object inherits from Object.prototype,
each paired with whether the inherited value is a function (so satisfies
a typeof "function" test). All are functions except __proto__, whose
accessor yields the prototype object. Both the in-operator and property
reads on the registry object observe these inherited names. -/
def objectProtoProps : List (String × Bool) :=
  [("constructor", true), ("toString", true), ("toLocaleString", true),
   ("valueOf", true), ("hasOwnProperty", true), ("isPrototypeOf", true),
   ("propertyIsEnumerable", true), ("__defineGetter__", true),
   ("__defineSetter__", true), ("__lookupGetter__", true),
   ("__lookupSetter__", true), ("__proto__", false)]

/-- The result of a property read on the registry object: an own entry,
a value inherited from Object.prototype (recorded by whether it is a
function), or undefined. -/
inductive PropRead : Type where
  | own (rv : RegVal)
  | inherited (isFn : Bool)
  | absent

/-- Full property lookup on the registry object with an already-coerced
string key: own entries first, then the Object.prototype chain. The
in-operator answers true exactly when this is not absent. -/
def readProp (entries : List (String × RegVal)) (key : String) : PropRead :=
  match lookupEntry entries key with
  | some rv => .own rv
  | none =>
      match objectProtoProps.find? (fun p => p.1 == key) with
      | some p => .inherited p.2
      | none => .absent

/-- typeof v == "function" for registry values. -/
def isFunctionVal : RegVal → Bool
  | .fn _ => true
  | _ => false

/-- Reading the method property of a registry value: functions and plain
objects without such a property yield undefined (none); property access on
the null or undefined primitive throws a TypeError. -/
def methodPropOf : RegVal → Outcome (Option RegVal)
  | .fn _ => .ok none
  | .mobj p => .ok p
  | .prim .null => .thrown (.typeError "Cannot read property \x27method\x27 of null")
  | .prim .undefined => .thrown (.typeError "Cannot read property \x27method\x27 of undefined")
  | .prim _ => .ok none

/-- The mutable fields of an RpcHandler instance that the modelled flows
read: this.methods, this.debug, this.json (initially the boolean false)
and this.id, where none means the field was never assigned (so that the
source test !("id" in this) is the none case). -/
structure RpcHandlerState : Type where
  methods : MethodsVal
  debug : Bool
  json : JSVal
  id : Option JSVal

/-- The slice of the handler instance a registered method can observe
through the public rpc interface: the captured id field and debug flag. -/
structure RpcCtx : Type where
  id : Option JSVal
  debug : Bool

/-- The context an instance presents to its own method calls. -/
def RpcHandlerState.ctx (st : RpcHandlerState) : RpcCtx :=
  ⟨st.id, st.debug⟩

/-- The serialized response body JSON.stringify({result: ..., error: ...,
id: ...}) exactly as RpcHandler.prototype._output builds it: the result
field is nulled when the error argument is truthy, the error field is
nulled when it is falsy. -/
def responseBody (result err i : JSVal) : String :=
  (jsonStringify (.obj
    (.cons "result" (if toBool err then .null else result)
      (.cons "error" (if toBool err then err else .null)
        (.cons "id" i .nil))))).getD "undefined"

namespace RpcHandler

/-- RpcHandler.prototype._output(result, error): writeHead with status
500 when the error argument is truthy and 200 otherwise, always with the
application/json content type; then, when the id field is absent or null,
an empty end() returning false, otherwise end(body) with the serialized
response envelope, returning true. -/
def _output (idv : Option JSVal) (result err : JSVal) : JsRun Bool :=
  let head := OutEvent.writeHead (if toBool err then 500 else 200) ct
  match idv with
  | none => ⟨[head, .endEmpty], .ok false⟩
  | some .null => ⟨[head, .endEmpty], .ok false⟩
  | some i => ⟨[head, .endWith (responseBody result err i)], .ok true⟩

/-- RpcHandler.prototype.error(error): this._output(false, error), its
result discarded. -/
def error (c : RpcCtx) (e : JSVal) : JsRun Unit :=
  (_output c.id (.bool false) e).discard

/-- RpcHandler.prototype.response(result): this._output(result, false),
its result discarded. -/
def response (c : RpcCtx) (result : JSVal) : JsRun Unit :=
  (_output c.id result (.bool false)).discard

end RpcHandler

/-- Interpreting a handler script against the rpc context the dispatcher
passed in: respond and fail are the two public methods, raise throws the
given Error, seq stops at the first throw. -/
def runHandler (c : RpcCtx) : HandlerAct → JsRun Unit
  | .respond x => RpcHandler.response c x
  | .fail m => RpcHandler.error c m
  | .raise msg => ⟨[], .thrown (.jsError msg)⟩
  | .nop => ⟨[], .ok ()⟩
  | .seq a b => (runHandler c a).andThen (runHandler c b)

/-- The invalid-method test of _run, read off the source condition
!this.json.method || !(this.json.method in this.methods) ||
typeof this.methods[this.json.method] != "function". The in-operator and
the bracket read both traverse the prototype chain, so a method name that
collides with an Object.prototype property (toString, valueOf, ...)
passes the in-test and typeof sees the inherited value: for the
function-valued inherited properties the whole guard passes. Only object
registries reach this test in _run (the null registry is caught by the
preceding !this.methods guard; the in-operator on null would throw). -/
def methodInvalid (json : JSVal) (m : MethodsVal) : Bool :=
  let mv := jsGetField json "method"
  if toBool mv = false then true
  else
    match m with
    | .null => true
    | .obj entries =>
        match readProp entries (jsToKeyString mv) with
        | .own rv => !(isFunctionVal rv)
        | .inherited isFn => !isFn
        | .absent => true

namespace RpcHandler

/-- Invoking the value read from the method property of the registry
entry, with this and this.json.params as arguments: a function value runs
as a handler script against the rpc context; reading the property already
threw for null and undefined primitives; calling anything that is not a
function throws a TypeError. -/
def invokeMethodProp : Outcome (Option RegVal) → RpcCtx → JSVal → JsRun Unit
  | .thrown e, _, _ => ⟨[], .thrown e⟩
  | .ok none, _, _ => ⟨[], .thrown (.typeError "undefined is not a function")⟩
  | .ok (some (.fn f)), c, params => runHandler c (f params)
  | .ok (some (.mobj _)), _, _ => ⟨[], .thrown (.typeError "value is not a function")⟩
  | .ok (some (.prim _)), _, _ => ⟨[], .thrown (.typeError "value is not a function")⟩

/-- Reading and invoking the method property of the value the registry
read produced: when the read yielded undefined (absent) the property
read itself throws a TypeError; when it yielded a value inherited from
Object.prototype (a host function, or the prototype object for
__proto__), that value has no own method property, so the invocation of
undefined throws a TypeError. -/
def dispatchEntry : PropRead → RpcCtx → JSVal → JsRun Unit
  | .absent, _, _ =>
      ⟨[], .thrown (.typeError "Cannot read property \x27method\x27 of undefined")⟩
  | .inherited _, _, _ => ⟨[], .thrown (.typeError "undefined is not a function")⟩
  | .own rv, c, params => invokeMethodProp (methodPropOf rv) c params

/-- The try-block body of _run, this.methods[this.json].method(this,
this.json.params): the registry is indexed with the whole decoded
envelope (not the method name), which is coerced to a property-key
string (for the object envelopes JSON.parse produces this is always
[object Object]); the method property of the value the read produced is
then read and invoked. Indexing into the null registry would throw, but
that case is unreachable behind the !this.methods guard. -/
def tryBlock : RpcHandlerState → JsRun Unit
  | ⟨.null, _, _, _⟩ => ⟨[], .thrown (.typeError "Cannot read properties of null")⟩
  | ⟨.obj entries, d, j, i⟩ =>
      dispatchEntry (readProp entries (jsToKeyString j)) ⟨i, d⟩ (jsGetField j "params")

/-- The catch clause of _run wrapped around a completed try-block run:
when the try-block threw, the catch body executes, and its first step is
reading the identifier rpcHandler, which is not bound in the scope of
_run (the only rpcHandler variable is local to _handleRequest), so the
catch itself throws a ReferenceError whatever the caught fault was;
events the try-block already emitted persist. -/
def catchWrap (t : JsRun Unit) : JsRun Unit :=
  match t.result with
  | .ok _ => t
  | .thrown _ => ⟨t.events, .thrown (.referenceError "rpcHandler is not defined")⟩

/-- RpcHandler.prototype._run: the No-methods guard, the invalid-method
guard (both answering through this.error, whose second argument in the
source is ignored by error), then the try/catch around the dispatch
line. -/
def _run (st : RpcHandlerState) : JsRun Unit :=
  if toBoolMethods st.methods = false then
    error st.ctx (.str "No methods")
  else if methodInvalid st.json st.methods then
    error st.ctx (.str "Invalid request method")
  else
    catchWrap (tryBlock st)

/-- The callback _handleRequest hands to the body reader: store the
decoded json on the instance, copy its id property to this.id when it has
one (even when its value is null), and run the dispatch step. -/
def requestCallback (st : RpcHandlerState) (json : JSVal) : JsRun Unit :=
  let st1 : RpcHandlerState :=
    { st with
      json := json
      id := if hasField json "id" then some (jsGetField json "id") else st.id }
  _run st1

/-- RpcHandler.prototype._handleRequestBody(callback): accumulate the
data chunks, then on end call callback(JSON.parse(content)). JSON.parse
is a host builtin, so its outcome on the accumulated body is the
parameter here; nothing in the source catches a parse failure, so it
propagates past the callback registration. -/
def _handleRequestBody (parsed : Outcome JSVal) (callback : JSVal → JsRun Unit) :
    JsRun Unit :=
  match parsed with
  | .thrown e => ⟨[], .thrown e⟩
  | .ok json => callback json

/-- The own and prototype properties of an RpcHandler instance that hold
functions, as assigned by the module. -/
def protoMethodNames : List String :=
  ["error", "response", "_run", "_output", "_handleRequest", "_handleRequestBody"]

/-- RpcHandler.prototype._handleRequest: set the request encoding (no
observable response-side effect), then invoke this._handleBodyRequest
with the dispatch callback. No property of that name exists on the
instance or its prototype (the defined reader is _handleRequestBody), so
the lookup yields undefined and the invocation throws a TypeError before
any listener is attached. -/
def _handleRequest (st : RpcHandlerState) (parsed : Outcome JSVal) : JsRun Unit :=
  if protoMethodNames.contains "_handleBodyRequest" then
    _handleRequestBody parsed (requestCallback st)
  else
    ⟨[], .thrown (.typeError "this._handleBodyRequest is not a function")⟩

end RpcHandler

/-- The methods constructor argument before the typeof check, keyed by
its JavaScript typeof class. -/
inductive MethodsArg : Type where
  | nullArg
  | objArg (entries : List (String × RegVal))
  | undefArg
  | funArg
  | strArg (s : String)
  | numArg (n : Int)
  | boolArg (b : Bool)

/-- typeof for the methods argument: null and plain objects both report
"object". -/
def jsTypeofArg : MethodsArg → String
  | .nullArg => "object"
  | .objArg _ => "object"
  | .undefArg => "undefined"
  | .funArg => "function"
  | .strArg _ => "string"
  | .numArg _ => "number"
  | .boolArg _ => "boolean"

/-- The methods value carried past the typeof guard; the fallthrough is
unreachable because only nullArg and objArg have typeof "object". -/
def methodsValOf : MethodsArg → MethodsVal
  | .nullArg => .null
  | .objArg entries => .obj entries
  | _ => .null

/-- The instance state right after the constructor field assignments:
this.methods, this.debug = !!debug, this.json = false, and no id field. -/
def initState (m : MethodsVal) (d : Bool) : RpcHandlerState :=
  ⟨m, d, .bool false, none⟩

/-- new RpcHandler(request, response, methods, debug): assign the fields,
then when typeof this.methods == "object" and both http handles are
truthy run this._handleRequest(), otherwise throw new Error("Invalid
params"). The request and response handles are modelled by their
truthiness; the parse outcome of the (eventually accumulated) body is the
parsed parameter. -/
def newRpcHandler (request response : Bool) (methods : MethodsArg) (debug : Bool)
    (parsed : Outcome JSVal) : JsRun Unit :=
  if (jsTypeofArg methods == "object") && request && response then
    RpcHandler._handleRequest (initState (methodsValOf methods) debug) parsed
  else
    ⟨[], .thrown (.jsError "Invalid params")⟩

/-- The insert method of the demo registry (rpcdemo.js): fail with
"Params doesn\x27t match!" when args[0] != args[1], respond with "Params
are OK!" otherwise. Reading [0] of the null or undefined params value
throws in JavaScript, modelled by raise. -/
def insertHandler : Handler := fun args =>
  match args with
  | .null => .raise "Cannot read properties of null"
  | .undefined => .raise "Cannot read properties of undefined"
  | _ =>
      if !(jsLooseEq (jsIndex args 0) (jsIndex args 1)) then
        .fail (.str "Params doesn\x27t match!")
      else
        .respond (.str "Params are OK!")

/-- The demo registry rpcMethods = (insert: ...). -/
def demoMethods : List (String × RegVal) := [("insert", .fn insertHandler)]

/-- The decoded envelope of the C1 scenario. -/
def c1Json : JSVal :=
  .obj (.cons "jsonrpc" (.str "2.0")
    (.cons "method" (.str "insert")
      (.cons "params" (.arr (.cons (.str "v") (.cons (.str "v") .nil)))
        (.cons "id" (.num 1) .nil))))

/-- A registered method that throws as soon as it is invoked. -/
def throwingHandler : Handler := fun _ => .raise "handler fault"

/-- A minimal envelope naming the registered insert method. -/
def c2Json : JSVal :=
  .obj (.cons "method" (.str "insert") (.cons "id" (.num 1) .nil))

/-- An envelope naming an unregistered method and carrying no id. -/
def noIdJson : JSVal := .obj (.cons "method" (.str "nope") .nil)

/-! Helper lemmas shared by the claim theorems. -/

/-- A trace concatenation has a body write iff one of its parts does. -/
theorem hasBodyWrite_append (l1 l2 : List OutEvent) :
    hasBodyWrite (l1 ++ l2) = (hasBodyWrite l1 || hasBodyWrite l2) := by
  simp [hasBodyWrite, List.any_append]

/-- With no id field, _output never writes a body. -/
theorem output_noBody_idNone (r e : JSVal) :
    hasBodyWrite (RpcHandler._output none r e).events = false := rfl

/-- A handler script run against a context with no id never writes a
body, whichever public calls it makes. -/
theorem runHandler_noBody_idNone (d : Bool) (act : HandlerAct) :
    hasBodyWrite (runHandler ⟨none, d⟩ act).events = false := by
  induction act with
  | respond x => rfl
  | fail m => rfl
  | raise msg => rfl
  | nop => rfl
  | seq a b iha ihb =>
      show hasBodyWrite ((runHandler ⟨none, d⟩ a).andThen (runHandler ⟨none, d⟩ b)).events
          = false
      unfold JsRun.andThen
      cases hres : (runHandler ⟨none, d⟩ a).result with
      | ok _ => simp [hasBodyWrite_append, iha, ihb]
      | thrown e => simpa using iha

/-- The broken catch clause preserves the events of the try-block. -/
theorem catchWrap_events (t : JsRun Unit) :
    (RpcHandler.catchWrap t).events = t.events := by
  obtain ⟨ev, res⟩ := t
  cases res <;> rfl

/-- Invoking a method property never writes a body when the rpc context
has no id. -/
theorem invokeMethodProp_noBody_idNone (o : Outcome (Option RegVal)) (d : Bool)
    (params : JSVal) :
    hasBodyWrite (RpcHandler.invokeMethodProp o ⟨none, d⟩ params).events = false := by
  cases o with
  | thrown e => rfl
  | ok op =>
      cases op with
      | none => rfl
      | some rv =>
          cases rv with
          | fn f => exact runHandler_noBody_idNone d _
          | mobj p => rfl
          | prim v => rfl

/-- The try-block of _run never writes a body when the instance has no
id field. -/
theorem tryBlock_noBody_idNone (m : MethodsVal) (d : Bool) (j : JSVal) :
    hasBodyWrite (RpcHandler.tryBlock ⟨m, d, j, none⟩).events = false := by
  cases m with
  | null => rfl
  | obj entries =>
      show hasBodyWrite
        (RpcHandler.dispatchEntry (readProp entries (jsToKeyString j)) ⟨none, d⟩
          (jsGetField j "params")).events = false
      cases hl : readProp entries (jsToKeyString j) with
      | absent => rfl
      | inherited isFn => rfl
      | own rv =>
          exact invokeMethodProp_noBody_idNone (methodPropOf rv) d _

/-- The dispatch step never writes a body when the instance has no id
field. -/
theorem run_noBody_idNone (m : MethodsVal) (d : Bool) (j : JSVal) :
    hasBodyWrite (RpcHandler._run ⟨m, d, j, none⟩).events = false := by
  unfold RpcHandler._run
  split
  · rfl
  · split
    · rfl
    · rw [catchWrap_events]
      exact tryBlock_noBody_idNone m d j

/-! The claims. -/

/-- C1: the end-to-end success scenario of the spec is not reproduced by
the code. Dispatching the body with a registry holding the demo insert
handler throws a TypeError from the constructor (this._handleBodyRequest
is not defined; the reader is named _handleRequestBody) with no output at
all; even the decode-and-dispatch step taken by itself, on the already
decoded envelope, ends in a ReferenceError (the registry is indexed with
the whole envelope, the resulting TypeError reaches the broken catch) and
writes nothing. The third conjunct records that the respond path by
itself would have produced exactly the claimed 200 response, so the claim
matches the module's documented intent. -/
theorem c1_success_scenario_not_reproduced :
    newRpcHandler true true (.objArg demoMethods) true (.ok c1Json) =
      ⟨[], .thrown (.typeError "this._handleBodyRequest is not a function")⟩ ∧
    RpcHandler.requestCallback (initState (.obj demoMethods) true) c1Json =
      ⟨[], .thrown (.referenceError "rpcHandler is not defined")⟩ ∧
    RpcHandler.response ⟨some (.num 1), true⟩ (.str "Params are OK!") =
      ⟨[.writeHead 200 ct,
        .endWith "\x7b\"result\":\"Params are OK!\",\"error\":null,\"id\":1\x7d"],
       .ok ()⟩ :=
  ⟨rfl, rfl, rfl⟩

/-- C2: handler fault isolation fails. With the demo-shaped registry the
dispatcher never invokes the registered handler at all: the dispatch line
indexes the registry with the whole envelope (key [object Object]), the
read throws a TypeError, and the catch clause, whose body reads the
unbound identifier rpcHandler, turns it into a ReferenceError that
propagates out of _run. The last conjunct shows the same propagation for
a handler that genuinely raises when invoked (reachable only through a
registry entry keyed [object Object] whose method property is the
function): the fault leaves the dispatcher as a ReferenceError instead of
becoming a RuntimeError response. -/
theorem c2_fault_isolation_broken :
    RpcHandler._run ⟨.obj [("insert", .fn throwingHandler)], false, c2Json, some (.num 1)⟩ =
      ⟨[], .thrown (.referenceError "rpcHandler is not defined")⟩ ∧
    lookupEntry [("insert", RegVal.fn throwingHandler)] (jsToKeyString c2Json) = none ∧
    RpcHandler._run
      ⟨.obj [("insert", .fn insertHandler),
             ("[object Object]", .mobj (some (.fn throwingHandler)))],
       false, c2Json, some (.num 1)⟩ =
      ⟨[], .thrown (.referenceError "rpcHandler is not defined")⟩ :=
  ⟨rfl, rfl, rfl⟩

/-- C3: parse safety fails. A JSON.parse failure on the accumulated body
propagates out of the body reader untouched (nothing in the source
catches it), and the full request path already throws a TypeError at
construction, before any listener is attached; in neither case is a
parse-fault response produced or the transport closed. -/
theorem c3_parse_fault_propagates :
    (∀ (e : JSErr) (k : JSVal → JsRun Unit),
      RpcHandler._handleRequestBody (.thrown e) k = ⟨[], .thrown e⟩) ∧
    newRpcHandler true true (.objArg demoMethods) true
        (.thrown (.parseFault "Unexpected token")) =
      ⟨[], .thrown (.typeError "this._handleBodyRequest is not a function")⟩ :=
  ⟨fun _ _ => rfl, rfl⟩

/-- C4 counterexample: a second respond on an already-finalized context
performs a full second writeHead-and-end on the transport; the combined
trace holds two body writes, refuting the claim that the second
invocation produces no second write. -/
theorem c4_double_respond_counterexample :
    ((RpcHandler.response ⟨some (.num 1), false⟩ (.str "a")).andThen
        (RpcHandler.response ⟨some (.num 1), false⟩ (.str "a"))).events =
      [.writeHead 200 ct, .endWith "\x7b\"result\":\"a\",\"error\":null,\"id\":1\x7d",
       .writeHead 200 ct, .endWith "\x7b\"result\":\"a\",\"error\":null,\"id\":1\x7d"] ∧
    (((RpcHandler.response ⟨some (.num 1), false⟩ (.str "a")).andThen
        (RpcHandler.response ⟨some (.num 1), false⟩ (.str "a"))).events.filter
      isEndWith).length = 2 :=
  ⟨rfl, rfl⟩

/-- C4 amended: the dispatcher keeps no responded flag and _output is
unguarded, so every invocation of respond or fail performs its own
writeHead-and-end pair on the transport, and a second invocation simply
appends a second pair (the trace of two calls is the concatenation of
their traces; each trace has exactly two transport calls). -/
theorem c4_no_finalization_guard (c : RpcCtx) (x m : JSVal) :
    ((RpcHandler.response c x).andThen (RpcHandler.error c m)).events =
      (RpcHandler.response c x).events ++ (RpcHandler.error c m).events ∧
    (RpcHandler.response c x).events.length = 2 ∧
    (RpcHandler.error c m).events.length = 2 := by
  obtain ⟨idv, d⟩ := c
  refine ⟨?_, ?_, ?_⟩ <;>
    (cases idv with
     | none => rfl
     | some i => cases i <;> rfl)

/-- C5: notification semantics hold. For every decoded envelope without
an id key, dispatch from the constructor-initial state writes no response
body whatever the registry, debug flag or handler scripts do; and on a
context without an id both public finalization paths close the transport
with an empty payload (the error path still chooses the status from the
truthiness of its message). -/
theorem c5_notification_no_body (m : MethodsVal) (d : Bool) (json : JSVal)
    (h : hasField json "id" = false) :
    hasBodyWrite (RpcHandler.requestCallback (initState m d) json).events = false ∧
    (∀ x : JSVal, RpcHandler.response ⟨none, d⟩ x =
      ⟨[.writeHead 200 ct, .endEmpty], .ok ()⟩) ∧
    (∀ e : JSVal, RpcHandler.error ⟨none, d⟩ e =
      ⟨[.writeHead (if toBool e then 500 else 200) ct, .endEmpty], .ok ()⟩) := by
  refine ⟨?_, fun x => rfl, fun e => rfl⟩
  unfold RpcHandler.requestCallback
  simp only [initState, h, Bool.false_eq_true, if_false]
  exact run_noBody_idNone m d json

/-- Witness for C5 at a concrete notification envelope. -/
theorem c5_notification_no_body_witness :
    hasField (JSVal.obj (.cons "method" (.str "insert")
        (.cons "params" (.arr (.cons (.str "v") (.cons (.str "v") .nil))) .nil)))
      "id" = false ∧
    hasBodyWrite (RpcHandler.requestCallback (initState (.obj demoMethods) true)
      (JSVal.obj (.cons "method" (.str "insert")
        (.cons "params" (.arr (.cons (.str "v") (.cons (.str "v") .nil))) .nil)))).events
      = false :=
  ⟨rfl,
   (c5_notification_no_body (.obj demoMethods) true
     (JSVal.obj (.cons "method" (.str "insert")
       (.cons "params" (.arr (.cons (.str "v") (.cons (.str "v") .nil))) .nil)))
     rfl).1⟩

/-- C6 counterexample: an envelope whose method names no registry entry
and which carries no id is answered with status 500 and an empty body; no
JSON body with id null is written, refuting the claimed response shape
for the id-absent case. -/
theorem c6_invalid_method_counterexample :
    RpcHandler.requestCallback (initState (.obj demoMethods) false) noIdJson =
      ⟨[.writeHead 500 ct, .endEmpty], .ok ()⟩ :=
  rfl

/-- C6 amended: for every envelope failing the dispatch-time method
check (method falsy, or its string coercion found neither among the
registry's own entries nor on the Object.prototype chain, or the value
found not a function), _run answers with status 500; when the instance
carries a present, non-null id the body is the serialized
(result: null, error: "Invalid request method", id) envelope, and when
the id is absent or null the transport closes with an empty body. The
last conjunct fixes the guard's boundary: a method name colliding with a
function-valued Object.prototype property (here toString) passes the
guard, so no Invalid-request-method response is written; dispatch
proceeds into the try block and ends in the propagating ReferenceError
with no output at all. -/
theorem c6_invalid_method_amended (entries : List (String × RegVal)) (d : Bool)
    (json : JSVal) (idv : Option JSVal)
    (h : methodInvalid json (.obj entries) = true) :
    (RpcHandler._run ⟨.obj entries, d, json, idv⟩ =
      ⟨OutEvent.writeHead 500 ct ::
        (match idv with
         | none => [OutEvent.endEmpty]
         | some JSVal.null => [OutEvent.endEmpty]
         | some i => [OutEvent.endWith
             (responseBody (.bool false) (.str "Invalid request method") i)]),
       .ok ()⟩) ∧
    methodInvalid (.obj (.cons "method" (.str "toString")
        (.cons "id" (.num 1) .nil))) (.obj demoMethods) = false ∧
    RpcHandler.requestCallback (initState (.obj demoMethods) false)
        (.obj (.cons "method" (.str "toString") (.cons "id" (.num 1) .nil))) =
      ⟨[], .thrown (.referenceError "rpcHandler is not defined")⟩ := by
  refine ⟨?_, rfl, rfl⟩
  unfold RpcHandler._run
  rw [if_neg (by simp [toBoolMethods]), if_pos h]
  cases idv with
  | none => rfl
  | some i => cases i <;> rfl

/-- Witness for C6 amended at a concrete unregistered, non-colliding
method name with a numeric id. -/
theorem c6_invalid_method_amended_witness :
    methodInvalid noIdJson (.obj demoMethods) = true ∧
    RpcHandler._run ⟨.obj demoMethods, false, noIdJson, some (.num 3)⟩ =
      ⟨[.writeHead 500 ct,
        .endWith "\x7b\"result\":null,\"error\":\"Invalid request method\",\"id\":3\x7d"],
       .ok ()⟩ :=
  ⟨rfl,
   ((c6_invalid_method_amended demoMethods false noIdJson (some (.num 3)) rfl).1).trans rfl⟩

/-- C7: success-response shape holds. On a context carrying a present,
non-null id, respond(x) emits exactly one writeHead with status 200 and
the application/json content type followed by exactly one end carrying
the serialized (result: x, error: null, id) envelope. -/
theorem c7_success_response_shape (i x : JSVal) (d : Bool)
    (h : isNullVal i = false) :
    RpcHandler.response ⟨some i, d⟩ x =
      ⟨[.writeHead 200 ct, .endWith (responseBody x (.bool false) i)], .ok ()⟩ := by
  cases i <;> first | rfl | simp [isNullVal] at h

/-- Witness for C7 at the demo result string and id 1. -/
theorem c7_success_response_shape_witness :
    isNullVal (JSVal.num 1) = false ∧
    RpcHandler.response ⟨some (.num 1), true⟩ (.str "Params are OK!") =
      ⟨[.writeHead 200 ct,
        .endWith "\x7b\"result\":\"Params are OK!\",\"error\":null,\"id\":1\x7d"],
       .ok ()⟩ :=
  ⟨rfl, (c7_success_response_shape (.num 1) (.str "Params are OK!") true rfl).trans rfl⟩

/-- C8: construction contract holds. Whenever the typeof check on the
methods argument fails or either http handle is falsy, the constructor
completes by throwing Error("Invalid params") with an empty transport
trace: no I/O has been performed. -/
theorem c8_construction_contract (request resp : Bool) (marg : MethodsArg)
    (d : Bool) (parsed : Outcome JSVal)
    (h : ((jsTypeofArg marg == "object") && request && resp) = false) :
    newRpcHandler request resp marg d parsed =
      ⟨[], .thrown (.jsError "Invalid params")⟩ := by
  unfold newRpcHandler
  simp [h]

/-- Witness for C8 with a string-typed methods argument. -/
theorem c8_construction_contract_witness :
    ((jsTypeofArg (.strArg "nope") == "object") && true && true) = false ∧
    newRpcHandler true true (.strArg "nope") false (.ok c1Json) =
      ⟨[], .thrown (.jsError "Invalid params")⟩ :=
  ⟨rfl, c8_construction_contract true true (.strArg "nope") false (.ok c1Json) rfl⟩

/-- C9: a falsy error message turns fail into a success response. When
the message is falsy (empty string, false, null, undefined or 0), error(m)
runs exactly as response(false): status 200, and when an id is present
the serialized body carries error null (and result false), so the
transport output is indistinguishable from a success response. -/
theorem c9_falsy_error_is_success (idv : Option JSVal) (d : Bool) (m : JSVal)
    (h : toBool m = false) :
    RpcHandler.error ⟨idv, d⟩ m = RpcHandler.response ⟨idv, d⟩ (.bool false) ∧
    firstStatus (RpcHandler.error ⟨idv, d⟩ m).events = some 200 := by
  constructor
  · cases idv with
    | none =>
        simp only [RpcHandler.error, RpcHandler.response, RpcHandler._output, h]
        rfl
    | some i =>
        cases i <;>
          (simp only [RpcHandler.error, RpcHandler.response, RpcHandler._output,
             responseBody, h]
           rfl)
  · cases idv with
    | none =>
        simp only [RpcHandler.error, RpcHandler._output, JsRun.discard, h]
        rfl
    | some i =>
        cases i <;>
          (simp only [RpcHandler.error, RpcHandler._output, JsRun.discard,
             responseBody, h]
           rfl)

/-- Witness for C9 at the empty error message and id 7. -/
theorem c9_falsy_error_is_success_witness :
    toBool (JSVal.str "") = false ∧
    (RpcHandler.error ⟨some (.num 7), false⟩ (.str "") =
        RpcHandler.response ⟨some (.num 7), false⟩ (.bool false) ∧
      firstStatus (RpcHandler.error ⟨some (.num 7), false⟩ (.str "")).events =
        some 200) :=
  ⟨rfl, c9_falsy_error_is_success (some (.num 7)) false (.str "") rfl⟩

/-- C10 counterexample: constructing with a null registry passes the
typeof check (no Invalid-params fault), but request handling then throws
the _handleBodyRequest TypeError with an empty trace: dispatch is never
reached and no No-methods response is produced. -/
theorem c10_null_registry_counterexample :
    newRpcHandler true true MethodsArg.nullArg true (.ok noIdJson) =
      ⟨[], .thrown (.typeError "this._handleBodyRequest is not a function")⟩ :=
  rfl

/-- C10 amended: a null registry passes the construction check, so no
Invalid-params fault is raised; handling halts with the TypeError of the
misnamed body reader before dispatch; and the dispatch step _run, taken
by itself with a null registry and a present non-null id, does answer
with the 500 No-methods error envelope. -/
theorem c10_null_registry_amended (d : Bool) (parsed : Outcome JSVal)
    (json : JSVal) (i : JSVal) (h : isNullVal i = false) :
    newRpcHandler true true MethodsArg.nullArg d parsed =
      ⟨[], .thrown (.typeError "this._handleBodyRequest is not a function")⟩ ∧
    RpcHandler._run ⟨MethodsVal.null, d, json, some i⟩ =
      ⟨[.writeHead 500 ct,
        .endWith (responseBody (.bool false) (.str "No methods") i)], .ok ()⟩ := by
  refine ⟨rfl, ?_⟩
  cases i <;> first | rfl | simp [isNullVal] at h

/-- Witness for C10 amended at id 3. -/
theorem c10_null_registry_amended_witness :
    isNullVal (JSVal.num 3) = false ∧
    (newRpcHandler true true MethodsArg.nullArg true (.ok (.obj .nil)) =
        ⟨[], .thrown (.typeError "this._handleBodyRequest is not a function")⟩ ∧
      RpcHandler._run ⟨MethodsVal.null, true, .obj .nil, some (.num 3)⟩ =
        ⟨[.writeHead 500 ct,
          .endWith "\x7b\"result\":null,\"error\":\"No methods\",\"id\":3\x7d"],
         .ok ()⟩) :=
  ⟨rfl,
   (c10_null_registry_amended true (.ok (.obj .nil)) (.obj .nil) (.num 3) rfl).imp
     id (fun h2 => h2.trans rfl)⟩

end Deimos
